import Mathlib

/-!
Verification development for the Wavefront OBJ loader and mesh transforms
of the scop repository (src/main.cpp). The parsing layer is embedded over
exact rationals (the C++ code computes with double / float; the embedding
idealises IEEE arithmetic as exact field arithmetic). The transform layer
is embedded generically over a linear ordered field, instantiated at the
rationals for executable checks and at the reals for the rotation code,
whose source uses the transcendental cos and sin.
-/

namespace Scop

/-- Error raised by std::strtod / std::stoi style conversions: either no
conversion could be performed (std::invalid_argument) or the converted
value is out of range of the result type (std::out_of_range). -/
inductive StrtoErr where
  | invalidArgument
  | outOfRange
deriving DecidableEq

/-- One constructor per throw site of the C++ code. The first ten mirror
InvalidObjFileException messages built by the record parsers (carrying the
offending line text), the next five mirror the messages built inside
ObjectFile::load (carrying the 1-based line number), and the last two model
a std::out_of_range escaping from std::stod / std::stoi, which the parsers
do not catch (they catch only std::invalid_argument). -/
inductive ObjErr where
  | invalidVertexLine (line : String)
  | invalidVertexValues (line : String)
  | invalidTexCoordLine (line : String)
  | invalidTexCoordValues (line : String)
  | invalidNormalLine (line : String)
  | invalidNormalValues (line : String)
  | invalidParamLine (line : String)
  | invalidParamValues (line : String)
  | invalidFaceLine (line : String)
  | invalidFaceValues (line : String)
  | lineTooShort (lineNum : Nat)
  | vertexIndexOOB (lineNum : Nat)
  | texCoordIndexOOB (lineNum : Nat)
  | normalIndexOOB (lineNum : Nat)
  | unknownToken (tok : String) (lineNum : Nat)
  | stodOutOfRange
  | stoiOutOfRange
deriving DecidableEq

/-- The what() text of each modelled exception, mirroring the string
concatenations in src/main.cpp (the two out-of-range messages stand for the
library text of the escaping std::out_of_range). -/
def ObjErr.message : ObjErr → String
  | .invalidVertexLine s => "Invalid vertex line: " ++ s
  | .invalidVertexValues s => "Invalid vertex line (invalid values): " ++ s
  | .invalidTexCoordLine s => "Invalid texture coordinate line: " ++ s
  | .invalidTexCoordValues s => "Invalid texture coordinate line (invalid values): " ++ s
  | .invalidNormalLine s => "Invalid normal line: " ++ s
  | .invalidNormalValues s => "Invalid normal line (invalid values): " ++ s
  | .invalidParamLine s => "Invalid parameter space vertex line: " ++ s
  | .invalidParamValues s => "Invalid parameter space vertex line (invalid values): " ++ s
  | .invalidFaceLine s => "Invalid face line: " ++ s
  | .invalidFaceValues s => "Invalid face line (invalid values): " ++ s
  | .lineTooShort n => "line " ++ toString n ++ " is invalid (too short)"
  | .vertexIndexOOB n => "line " ++ toString n ++ " is invalid (vertex index out of bounds)"
  | .texCoordIndexOOB n => "line " ++ toString n ++ " is invalid (texture coordinate index out of bounds)"
  | .normalIndexOOB n => "line " ++ toString n ++ " is invalid (normal index out of bounds)"
  | .unknownToken t n => "unknown token " ++ t ++ " on line " ++ toString n
  | .stodOutOfRange => "stod: out of range"
  | .stoiOutOfRange => "stoi: out of range"

/-- The line number interpolated into the error message, when the throw
site interpolates one (only the throw sites inside ObjectFile::load do). -/
def ObjErr.lineNum : ObjErr → Option Nat
  | .lineTooShort n => some n
  | .vertexIndexOOB n => some n
  | .texCoordIndexOOB n => some n
  | .normalIndexOOB n => some n
  | .unknownToken _ n => some n
  | _ => none

/-- The offending line text interpolated into the error message, when the
throw site interpolates one (the record parser throw sites do). -/
def ObjErr.lineText : ObjErr → Option String
  | .invalidVertexLine s => some s
  | .invalidVertexValues s => some s
  | .invalidTexCoordLine s => some s
  | .invalidTexCoordValues s => some s
  | .invalidNormalLine s => some s
  | .invalidNormalValues s => some s
  | .invalidParamLine s => some s
  | .invalidParamValues s => some s
  | .invalidFaceLine s => some s
  | .invalidFaceValues s => some s
  | _ => none

/-- Core of the split function of src/main.cpp, which repeatedly calls
std::getline on a stringstream. The first argument holds the token being
accumulated by the current getline call, none meaning a fresh getline call
has not yet extracted any character. A fresh call at end of input fails
(getline extracts nothing and sets failbit), so a trailing delimiter does
not produce a trailing empty token. -/
def splitGo (d : Char) : Option (List Char) → List Char → List (List Char)
  | none, [] => []
  | some acc, [] => [acc.reverse]
  | cur, c :: cs =>
    if c = d then (cur.getD []).reverse :: splitGo d none cs
    else splitGo d (some (c :: cur.getD [])) cs

/-- split of src/main.cpp: split("a/b/c//d", '/') yields a, b, c, the empty
token, d. -/
def split (s : String) (d : Char) : List String :=
  (splitGo d none s.data).map (fun t => String.mk t)

/-- Core of split_without_empty of src/main.cpp: the same getline loop, but
a token is pushed only when it is nonempty. -/
def splitNEGo (d : Char) : Option (List Char) → List Char → List (List Char)
  | none, [] => []
  | some acc, [] => if acc = [] then [] else [acc.reverse]
  | cur, c :: cs =>
    if c = d then
      if (cur.getD []) = [] then splitNEGo d none cs
      else (cur.getD []).reverse :: splitNEGo d none cs
    else splitNEGo d (some (c :: cur.getD [])) cs

/-- split_without_empty of src/main.cpp: split_without_empty("a/b/c//d", '/')
yields a, b, c, d. -/
def split_without_empty (s : String) (d : Char) : List String :=
  (splitNEGo d none s.data).map (fun t => String.mk t)

/-- Modelled from the spec: the common preprocessing step of section 4.1,
which says each record parser splits its line on whitespace, discarding
empty fields. Whitespace is the std::isspace set. This definition exists
only to be compared with split_without_empty, which the code actually uses. -/
def wsGo : List Char → List Char → List (List Char)
  | acc, [] => [acc.reverse]
  | acc, c :: cs =>
    if c = ' ' ∨ c = '\t' ∨ c = '\n' ∨ c = '\x0b' ∨ c = '\x0c' ∨ c = '\r' then
      acc.reverse :: wsGo [] cs
    else wsGo (c :: acc) cs

/-- Modelled from the spec: split on whitespace, discarding empty fields. -/
def wsSplitSpec (s : String) : List String :=
  ((wsGo [] s.data).map (fun t => String.mk t)).filter (fun t => t ≠ "")

/-- The std::isspace characters in the default locale. -/
def isSpaceCpp (c : Char) : Bool :=
  c = ' ' ∨ c = '\t' ∨ c = '\n' ∨ c = '\x0b' ∨ c = '\x0c' ∨ c = '\r'

/-- Optional leading sign of a strtod / strtol subject sequence; returns
whether the value is negated, and the remaining characters. -/
def parseSign : List Char → Bool × List Char
  | '-' :: cs => (true, cs)
  | '+' :: cs => (false, cs)
  | cs => (false, cs)

/-- Value of a run of decimal digit characters. -/
def digitsVal (cs : List Char) : Nat :=
  cs.foldl (fun a c => a * 10 + (c.toNat - '0'.toNat)) 0

/-- Ten to the given power, as an integer. -/
def pow10 (k : Nat) : ℤ := Int.ofNat (Nat.pow 10 k)

/-- Sixteen to the given power, as an integer. -/
def pow16 (k : Nat) : ℤ := Int.ofNat (Nat.pow 16 k)

/-- Two to the given power, as an integer. -/
def pow2z (k : Nat) : ℤ := Int.ofNat (Nat.pow 2 k)

/-- Overflow threshold used by the stod model: the first power of two past
the largest finite double. The exact IEEE round-to-nearest overflow
boundary is abstracted to this value. -/
def dblMax : ℚ := Rat.divInt (Int.ofNat (Nat.pow 2 1024)) 1

/-- Result of a successful strtod conversion: a finite value, converted
exactly, or one of the non-finite doubles produced by the infinity and
nan forms. -/
inductive StodVal where
  | finite (q : ℚ)
  | posInf
  | negInf
  | nan
deriving DecidableEq

/-- Projection of a conversion result into the exact-rational coordinate
embedding. The non-finite doubles have no rational counterpart and are
projected to zero; no theorem relies on the projected value of a
non-finite result. -/
def StodVal.toRat : StodVal → ℚ
  | .finite q => q
  | .posInf => 0
  | .negInf => 0
  | .nan => 0

/-- Hexadecimal digit test of strtod. -/
def isHexDigit (c : Char) : Bool :=
  c.isDigit || ('a' ≤ c && c ≤ 'f') || ('A' ≤ c && c ≤ 'F')

/-- Value of one hexadecimal digit. -/
def hexDigitVal (c : Char) : Nat :=
  if c.isDigit then c.toNat - '0'.toNat
  else if 'a' ≤ c && c ≤ 'f' then c.toNat - 'a'.toNat + 10
  else c.toNat - 'A'.toNat + 10

/-- Value of a run of hexadecimal digit characters. -/
def hexDigitsVal (cs : List Char) : Nat :=
  cs.foldl (fun a c => a * 16 + hexDigitVal c) 0

/-- The characters after the sign select the case-insensitive infinity
form of strtod. -/
def isInfStart (l : List Char) : Bool :=
  (l.head?.any fun c => c = 'i' || c = 'I') &&
  ((l.drop 1).head?.any fun c => c = 'n' || c = 'N') &&
  ((l.drop 2).head?.any fun c => c = 'f' || c = 'F')

/-- The characters after the sign select the case-insensitive nan form of
strtod. -/
def isNanStart (l : List Char) : Bool :=
  (l.head?.any fun c => c = 'n' || c = 'N') &&
  ((l.drop 1).head?.any fun c => c = 'a' || c = 'A') &&
  ((l.drop 2).head?.any fun c => c = 'n' || c = 'N')

/-- The characters after the sign select the hexadecimal form of strtod:
the digit zero, then x or X, then a nonempty hexadecimal mantissa
(starting with a hexadecimal digit, or with a point followed by one). -/
def isHexStart (l : List Char) : Bool :=
  (l.head? = some '0') &&
  ((l.drop 1).head?.any fun c => c = 'x' || c = 'X') &&
  ((l.drop 2).head?.any isHexDigit ||
    (((l.drop 2).head? = some '.') && (l.drop 3).head?.any isHexDigit))

/-- Model of std::stod (C strtod): skip leading whitespace and an
optional sign; then accept, taking the longest valid initial subsequence
and ignoring everything after it, one of: the case-insensitive infinity
and nan forms, which produce non-finite doubles; the hexadecimal form (0x
or 0X, a nonempty hexadecimal mantissa optionally containing one point,
and an optional binary exponent introduced by p or P); or the decimal
form (a digit sequence optionally containing one point, at least one
digit in total, and an optional exponent introduced by e or E). An input
with none of these forms raises std::invalid_argument; a converted finite
value beyond the double range raises std::out_of_range. The conversion is
exact rather than rounded to the nearest double; the sign and payload of
a nan form affect no observable value and are not recorded; underflow to
denormals is not modelled. -/
def stodModel (s : String) : Except StrtoErr StodVal :=
  let cs := s.data.dropWhile isSpaceCpp
  let sr := parseSign cs
  if isInfStart sr.2 then .ok (if sr.1 then .negInf else .posInf)
  else if isNanStart sr.2 then .ok .nan
  else if isHexStart sr.2 then
    let t := sr.2.drop 2
    let intPart := t.takeWhile isHexDigit
    let rest1 := t.dropWhile isHexDigit
    let fr : List Char × List Char :=
      if rest1.head? = some '.' then
        ((rest1.drop 1).takeWhile isHexDigit, (rest1.drop 1).dropWhile isHexDigit)
      else ([], rest1)
    let e : ℤ :=
      if fr.2.head? = some 'p' ∨ fr.2.head? = some 'P' then
        let er := parseSign (fr.2.drop 1)
        let eds := er.2.takeWhile Char.isDigit
        if eds = [] then 0
        else if er.1 then -(digitsVal eds : ℤ) else (digitsVal eds : ℤ)
      else 0
    let num : ℤ :=
      if sr.1 then -(hexDigitsVal (intPart ++ fr.1) : ℤ)
      else (hexDigitsVal (intPart ++ fr.1) : ℤ)
    let v : ℚ :=
      if 0 ≤ e then Rat.divInt (num * pow2z e.toNat) (pow16 fr.1.length)
      else Rat.divInt num (pow16 fr.1.length * pow2z (-e).toNat)
    if v < -dblMax ∨ dblMax < v then .error .outOfRange else .ok (.finite v)
  else
    let intPart := sr.2.takeWhile Char.isDigit
    let rest1 := sr.2.dropWhile Char.isDigit
    let fr : List Char × List Char :=
      if rest1.head? = some '.' then
        ((rest1.drop 1).takeWhile Char.isDigit, (rest1.drop 1).dropWhile Char.isDigit)
      else ([], rest1)
    if intPart = [] ∧ fr.1 = [] then .error .invalidArgument
    else
      let e : ℤ :=
        if fr.2.head? = some 'e' ∨ fr.2.head? = some 'E' then
          let er := parseSign (fr.2.drop 1)
          let eds := er.2.takeWhile Char.isDigit
          if eds = [] then 0
          else if er.1 then -(digitsVal eds : ℤ) else (digitsVal eds : ℤ)
        else 0
      let num : ℤ :=
        if sr.1 then -(digitsVal (intPart ++ fr.1) : ℤ) else (digitsVal (intPart ++ fr.1) : ℤ)
      let v : ℚ :=
        if 0 ≤ e then Rat.divInt (num * pow10 e.toNat) (pow10 fr.1.length)
        else Rat.divInt num (pow10 (fr.1.length + (-e).toNat))
      if v < -dblMax ∨ dblMax < v then .error .outOfRange else .ok (.finite v)

/-- Model of std::stoi (strtol in base 10 followed by the int range check):
skip leading whitespace, an optional sign, then at least one decimal digit
(else std::invalid_argument), ignoring everything after the digit run. A
value outside the 32-bit int range raises std::out_of_range. -/
def stoiModel (s : String) : Except StrtoErr ℤ :=
  let cs := s.data.dropWhile isSpaceCpp
  let sr := parseSign cs
  let ds := sr.2.takeWhile Char.isDigit
  if ds = [] then .error .invalidArgument
  else
    let v : ℤ := if sr.1 then -(digitsVal ds : ℤ) else (digitsVal ds : ℤ)
    if v < -(2 ^ 31) ∨ 2 ^ 31 - 1 < v then .error .outOfRange else .ok v

/-- Runs the stod model inside a record parser: std::invalid_argument is
caught and replaced by the classified parser error, while std::out_of_range
is not caught and escapes. The accepted double is stored into the record
through the exact-rational projection of StodVal. -/
def runStod (onInvalid : ObjErr) (t : String) : Except ObjErr ℚ :=
  match stodModel t with
  | .ok v => .ok v.toRat
  | .error .invalidArgument => .error onInvalid
  | .error .outOfRange => .error .stodOutOfRange

/-- Runs the stoi model inside the face parser: std::invalid_argument is
caught and replaced by the classified parser error, while std::out_of_range
is not caught and escapes. -/
def runStoi (onInvalid : ObjErr) (t : String) : Except ObjErr ℤ :=
  match stoiModel t with
  | .ok v => .ok v
  | .error .invalidArgument => .error onInvalid
  | .error .outOfRange => .error .stoiOutOfRange

/-- ObjVertex of src/main.cpp: a v record; w defaults to 1. -/
structure ObjVertex (K : Type) where
  x : K
  y : K
  z : K
  w : K
deriving DecidableEq

/-- ObjTextureCoordinate of src/main.cpp: a vt record; v and w default to 0. -/
structure ObjTextureCoordinate (K : Type) where
  u : K
  v : K
  w : K
deriving DecidableEq

/-- ObjNormal of src/main.cpp: a vn record. -/
structure ObjNormal (K : Type) where
  x : K
  y : K
  z : K
deriving DecidableEq

/-- ObjParameterSpaceVertex of src/main.cpp: a vp record; v defaults to 0
and w defaults to 1. -/
structure ObjParameterSpaceVertex (K : Type) where
  u : K
  v : K
  w : K
deriving DecidableEq

/-- ObjFace::Vertex of src/main.cpp: one corner of a face; the texture
coordinate and normal indices are optional. -/
structure ObjFaceVertex where
  vertexIndex : ℤ
  textureCoordinateIndex : Option ℤ
  normalIndex : Option ℤ
deriving DecidableEq

/-- ObjFace of src/main.cpp. -/
structure ObjFace where
  vertices : List ObjFaceVertex
deriving DecidableEq

/-- ObjLine of src/main.cpp (declared but never parsed; the l branch of
load is commented out). -/
structure ObjLine where
  vertexIndices : List Nat
deriving DecidableEq

instance {ε α : Type} [DecidableEq ε] [DecidableEq α] : DecidableEq (Except ε α) := fun x y =>
  match x, y with
  | .ok a, .ok b =>
    if h : a = b then .isTrue (by rw [h])
    else .isFalse (by intro hc; injection hc; contradiction)
  | .error a, .error b =>
    if h : a = b then .isTrue (by rw [h])
    else .isFalse (by intro hc; injection hc; contradiction)
  | .ok _, .error _ => .isFalse (by intro hc; cases hc)
  | .error _, .ok _ => .isFalse (by intro hc; cases hc)

/-- parseVertex of src/main.cpp. -/
def parseVertex (line : String) : Except ObjErr (ObjVertex ℚ) :=
  let tokens := split_without_empty line ' '
  if tokens.length < 4 ∨ 5 < tokens.length ∨ tokens.head? ≠ some "v" then
    .error (.invalidVertexLine line)
  else
    match runStod (.invalidVertexValues line) (tokens.getD 1 "") with
    | .error e => .error e
    | .ok x =>
      match runStod (.invalidVertexValues line) (tokens.getD 2 "") with
      | .error e => .error e
      | .ok y =>
        match runStod (.invalidVertexValues line) (tokens.getD 3 "") with
        | .error e => .error e
        | .ok z =>
          if 5 ≤ tokens.length then
            match runStod (.invalidVertexValues line) (tokens.getD 4 "") with
            | .error e => .error e
            | .ok w => .ok ⟨x, y, z, w⟩
          else .ok ⟨x, y, z, 1⟩

/-- parseTextureCoordinate of src/main.cpp. -/
def parseTextureCoordinate (line : String) : Except ObjErr (ObjTextureCoordinate ℚ) :=
  let tokens := split_without_empty line ' '
  if tokens.length < 2 ∨ 4 < tokens.length ∨ tokens.head? ≠ some "vt" then
    .error (.invalidTexCoordLine line)
  else
    match runStod (.invalidTexCoordValues line) (tokens.getD 1 "") with
    | .error e => .error e
    | .ok u =>
      if 3 ≤ tokens.length then
        match runStod (.invalidTexCoordValues line) (tokens.getD 2 "") with
        | .error e => .error e
        | .ok v =>
          if 4 ≤ tokens.length then
            match runStod (.invalidTexCoordValues line) (tokens.getD 3 "") with
            | .error e => .error e
            | .ok w => .ok ⟨u, v, w⟩
          else .ok ⟨u, v, 0⟩
      else .ok ⟨u, 0, 0⟩

/-- parseNormal of src/main.cpp. -/
def parseNormal (line : String) : Except ObjErr (ObjNormal ℚ) :=
  let tokens := split_without_empty line ' '
  if tokens.length ≠ 4 ∨ tokens.head? ≠ some "vn" then
    .error (.invalidNormalLine line)
  else
    match runStod (.invalidNormalValues line) (tokens.getD 1 "") with
    | .error e => .error e
    | .ok x =>
      match runStod (.invalidNormalValues line) (tokens.getD 2 "") with
      | .error e => .error e
      | .ok y =>
        match runStod (.invalidNormalValues line) (tokens.getD 3 "") with
        | .error e => .error e
        | .ok z => .ok ⟨x, y, z⟩

/-- parseParameterSpaceVertex of src/main.cpp. -/
def parseParameterSpaceVertex (line : String) : Except ObjErr (ObjParameterSpaceVertex ℚ) :=
  let tokens := split_without_empty line ' '
  if tokens.length < 2 ∨ 4 < tokens.length ∨ tokens.head? ≠ some "vp" then
    .error (.invalidParamLine line)
  else
    match runStod (.invalidParamValues line) (tokens.getD 1 "") with
    | .error e => .error e
    | .ok u =>
      if 3 ≤ tokens.length then
        match runStod (.invalidParamValues line) (tokens.getD 2 "") with
        | .error e => .error e
        | .ok v =>
          if 4 ≤ tokens.length then
            match runStod (.invalidParamValues line) (tokens.getD 3 "") with
            | .error e => .error e
            | .ok w => .ok ⟨u, v, w⟩
          else .ok ⟨u, v, 1⟩
      else .ok ⟨u, 0, 1⟩

/-- Body of the face token loop of parseFace in src/main.cpp: split one
whitespace-delimited face field on the slash character, keeping empty
subtokens; reject fields with fewer than 1 or more than 3 subtokens; parse
the mandatory vertex index, the optional texture coordinate index (skipped
when the second subtoken is empty, the v slash slash vn form), and the
optional normal index. -/
def faceFieldParse (line t : String) : Except ObjErr ObjFaceVertex :=
  let sub := split t '/'
  if sub.length < 1 ∨ 3 < sub.length then .error (.invalidFaceLine line)
  else
    match runStoi (.invalidFaceValues line) (sub.getD 0 "") with
    | .error e => .error e
    | .ok vi =>
      match
        (if 2 ≤ sub.length ∧ sub.getD 1 "" ≠ "" then
          match runStoi (.invalidFaceValues line) (sub.getD 1 "") with
          | .error e => .error e
          | .ok ti => .ok (some ti)
        else .ok none : Except ObjErr (Option ℤ)) with
      | .error e => .error e
      | .ok ti =>
        match
          (if 3 ≤ sub.length then
            match runStoi (.invalidFaceValues line) (sub.getD 2 "") with
            | .error e => .error e
            | .ok ni => .ok (some ni)
          else .ok none : Except ObjErr (Option ℤ)) with
        | .error e => .error e
        | .ok ni => .ok ⟨vi, ti, ni⟩

/-- Sequential left-to-right mapping over a list in the Except monad,
aborting at the first error, mirroring a C++ loop whose body may throw. -/
def exceptMapList {α β : Type} (f : α → Except ObjErr β) : List α → Except ObjErr (List β)
  | [] => .ok []
  | a :: l =>
    match f a with
    | .error e => .error e
    | .ok b =>
      match exceptMapList f l with
      | .error e => .error e
      | .ok bs => .ok (b :: bs)

/-- parseFace of src/main.cpp. -/
def parseFace (line : String) : Except ObjErr ObjFace :=
  let tokens := split_without_empty line ' '
  if tokens.length < 4 ∨ tokens.head? ≠ some "f" then
    .error (.invalidFaceLine line)
  else
    match exceptMapList (faceFieldParse line) (tokens.drop 1) with
    | .error e => .error e
    | .ok fvs => .ok ⟨fvs⟩

/-- The ObjectFile class of src/main.cpp, restricted to the mesh document
state (the filename string, used only for diagnostics and display, is
omitted). The running counters and the cumulative scale accumulator carry
their C++ member names. -/
structure ObjectFile (K : Type) where
  _vertices : List (ObjVertex K)
  _texcoords : List (ObjTextureCoordinate K)
  _normals : List (ObjNormal K)
  _paramSpaceVertices : List (ObjParameterSpaceVertex K)
  _faces : List ObjFace
  _lines : List ObjLine
  _verticesCount : Nat
  _texcoordsCount : Nat
  _normalsCount : Nat
  _scale : K
deriving DecidableEq

/-- A default-constructed ObjectFile: empty sequences, zero counters, and
the member initializer _scale = 1.0. -/
def ObjectFile.init : ObjectFile ℚ :=
  ⟨[], [], [], [], [], [], 0, 0, 0, 1⟩

/-- Index normalization of ObjectFile::load in src/main.cpp: a negative raw
index i becomes n + i, where n is the running count of the referenced
element type, and a nonnegative raw index becomes i - 1. -/
def normIdx (n : Nat) (i : ℤ) : ℤ :=
  if i < 0 then (n : ℤ) + i else i - 1

/-- The bounds test of ObjectFile::load: a normalized index is rejected
when it is negative or not below the running element count. -/
def idxOutOfBounds (n : Nat) (i : ℤ) : Prop :=
  i < 0 ∨ (n : ℤ) ≤ i

instance (n : Nat) (i : ℤ) : Decidable (idxOutOfBounds n i) := by
  unfold idxOutOfBounds; infer_instance

/-- The per-face-vertex normalization and bounds-check block of
ObjectFile::load in src/main.cpp (lines 316 to 340): normalize the vertex,
texture coordinate, and normal indices against the running counts, then
fail with the out-of-bounds error of the given line when the normalized
vertex index, else the texture coordinate index, else the normal index,
falls outside its running count. -/
def checkFaceVertex (vc tc nc lineNum : Nat) (fv : ObjFaceVertex) :
    Except ObjErr ObjFaceVertex :=
  let vi := normIdx vc fv.vertexIndex
  let ti := fv.textureCoordinateIndex.map (normIdx tc)
  let ni := fv.normalIndex.map (normIdx nc)
  if idxOutOfBounds vc vi then .error (.vertexIndexOOB lineNum)
  else if ti.any (fun t => decide (idxOutOfBounds tc t)) then .error (.texCoordIndexOOB lineNum)
  else if ni.any (fun t => decide (idxOutOfBounds nc t)) then .error (.normalIndexOOB lineNum)
  else .ok ⟨vi, ti, ni⟩

/-- One iteration of the while loop of ObjectFile::load in src/main.cpp:
skip blank and comment lines, reject lines shorter than the two-character
dispatch prefix, dispatch on the first two characters, append the parsed
record (bumping the matching counter), and for faces normalize and
bounds-check every reference against the counts seen so far. -/
def loadLine (doc : ObjectFile ℚ) (lineNum : Nat) (line : String) :
    Except ObjErr (ObjectFile ℚ) :=
  if line.length = 0 ∨ line.data.head? = some '#' then .ok doc
  else if line.length < 2 then .error (.lineTooShort lineNum)
  else
    let identifier : String := String.mk (line.data.take 2)
    if identifier = "v " then
      match parseVertex line with
      | .error e => .error e
      | .ok v => .ok { doc with
          _vertices := doc._vertices ++ [v],
          _verticesCount := doc._verticesCount + 1 }
    else if identifier = "vt" then
      match parseTextureCoordinate line with
      | .error e => .error e
      | .ok t => .ok { doc with
          _texcoords := doc._texcoords ++ [t],
          _texcoordsCount := doc._texcoordsCount + 1 }
    else if identifier = "vn" then
      match parseNormal line with
      | .error e => .error e
      | .ok nrm => .ok { doc with
          _normals := doc._normals ++ [nrm],
          _normalsCount := doc._normalsCount + 1 }
    else if identifier = "vp" then
      match parseParameterSpaceVertex line with
      | .error e => .error e
      | .ok p => .ok { doc with _paramSpaceVertices := doc._paramSpaceVertices ++ [p] }
    else if identifier = "f " then
      match parseFace line with
      | .error e => .error e
      | .ok face =>
        match exceptMapList
            (checkFaceVertex doc._verticesCount doc._texcoordsCount doc._normalsCount lineNum)
            face.vertices with
        | .error e => .error e
        | .ok fvs => .ok { doc with _faces := doc._faces ++ [⟨fvs⟩] }
    else .error (.unknownToken identifier lineNum)

/-- The while loop of ObjectFile::load, with the line counter threaded
through: lineNum holds the number of lines consumed so far, so the line at
the head of the list is line lineNum + 1. -/
def loadFrom (doc : ObjectFile ℚ) (lineNum : Nat) : List String → Except ObjErr (ObjectFile ℚ)
  | [] => .ok doc
  | l :: ls =>
    match loadLine doc (lineNum + 1) l with
    | .error e => .error e
    | .ok d => loadFrom d (lineNum + 1) ls

/-- ObjectFile::load of src/main.cpp, on a file already divided into its
newline-delimited lines (the stream handling and the FileNotFound case are
outside the embedding). -/
def load (lines : List String) : Except ObjErr (ObjectFile ℚ) :=
  loadFrom .init 0 lines

section Transforms

variable {K : Type} [LinearOrderedField K]

/-- ObjectFile::getCenterPoint of src/main.cpp: accumulate the component
sums over all vertices in one pass, then divide each by the number of
vertices. -/
def ObjectFile.getCenterPoint (d : ObjectFile K) : K × K × K :=
  let s := d._vertices.foldl
    (fun (a : K × K × K) v => (a.1 + v.x, a.2.1 + v.y, a.2.2 + v.z)) (0, 0, 0)
  (s.1 / (d._vertices.length : K), s.2.1 / (d._vertices.length : K),
    s.2.2 / (d._vertices.length : K))

/-- ObjectFile::translate of src/main.cpp. -/
def ObjectFile.translate (d : ObjectFile K) (dx dy dz : K) : ObjectFile K :=
  { d with _vertices := d._vertices.map (fun v =>
      { v with x := v.x + dx, y := v.y + dy, z := v.z + dz }) }

/-- ObjectFile::scale of src/main.cpp: a silent no-op when the factor is
zero or the resulting cumulative scale leaves the interval from 0.01 to 2;
otherwise update the accumulator and move every vertex away from the
centroid by the factor. -/
def ObjectFile.scale (d : ObjectFile K) (factor : K) : ObjectFile K :=
  if factor = 0 ∨ d._scale * factor < 1 / 100 ∨ 2 < d._scale * factor then d
  else
    let c := d.getCenterPoint
    { d with
      _scale := d._scale * factor,
      _vertices := d._vertices.map (fun v =>
        { v with
          x := c.1 + (v.x - c.1) * factor,
          y := c.2.1 + (v.y - c.2.1) * factor,
          z := c.2.2 + (v.z - c.2.2) * factor }) }

/-- ObjectFile::center of src/main.cpp. -/
def ObjectFile.center (d : ObjectFile K) : ObjectFile K :=
  let c := d.getCenterPoint
  { d with _vertices := d._vertices.map (fun v =>
      { v with x := v.x - c.1, y := v.y - c.2.1, z := v.z - c.2.2 }) }

/-- The max-extent scan of ObjectFile::normalize in src/main.cpp: starting
from zero, raise the running maximum to the absolute value of each raw
coordinate component, x then y then z per vertex. The scan uses the raw
coordinates, not centroid-relative ones. -/
def ObjectFile.normMax (d : ObjectFile K) : K :=
  d._vertices.foldl
    (fun m v =>
      let m1 := if m < |v.x| then |v.x| else m
      let m2 := if m1 < |v.y| then |v.y| else m1
      if m2 < |v.z| then |v.z| else m2) 0

/-- ObjectFile::normalize of src/main.cpp: compute the centroid and the
raw max extent, then remap every component as (component - centroid
component) / max. -/
def ObjectFile.normalize (d : ObjectFile K) : ObjectFile K :=
  let c := d.getCenterPoint
  let m := d.normMax
  { d with _vertices := d._vertices.map (fun v =>
      { v with x := (v.x - c.1) / m, y := (v.y - c.2.1) / m, z := (v.z - c.2.2) / m }) }

end Transforms

/-- glm::radians: degrees times pi over 180. -/
noncomputable def radiansOf (deg : ℝ) : ℝ := deg * (Real.pi / 180)

/-- rotateVertex of src/main.cpp: convert the three angles from degrees to
radians, translate the vertex so the pivot becomes the origin, rotate
around x, then around y, then around z, each step applied to the result of
the previous one, then translate back. -/
noncomputable def rotateVertex (vertex : ObjVertex ℝ) (center : ℝ × ℝ × ℝ)
    (angleX angleY angleZ : ℝ) : ℝ × ℝ × ℝ :=
  let aX := radiansOf angleX
  let aY := radiansOf angleY
  let aZ := radiansOf angleZ
  let v : ℝ × ℝ × ℝ := (vertex.x - center.1, vertex.y - center.2.1, vertex.z - center.2.2)
  let v2 : ℝ × ℝ × ℝ := (v.1,
    v.2.1 * Real.cos aX - v.2.2 * Real.sin aX,
    v.2.1 * Real.sin aX + v.2.2 * Real.cos aX)
  let v3 : ℝ × ℝ × ℝ := (v2.1 * Real.cos aY + v2.2.2 * Real.sin aY,
    v2.2.1,
    -v2.1 * Real.sin aY + v2.2.2 * Real.cos aY)
  let v4 : ℝ × ℝ × ℝ := (v3.1 * Real.cos aZ - v3.2.1 * Real.sin aZ,
    v3.1 * Real.sin aZ + v3.2.1 * Real.cos aZ,
    v3.2.2)
  (v4.1 + center.1, v4.2.1 + center.2.1, v4.2.2 + center.2.2)

/-- ObjectFile::rotate of src/main.cpp: rotate every vertex about the
centroid, writing the rotated components back in place. -/
noncomputable def ObjectFile.rotate (d : ObjectFile ℝ) (angleXDeg angleYDeg angleZDeg : ℝ) :
    ObjectFile ℝ :=
  let c := d.getCenterPoint
  { d with _vertices := d._vertices.map (fun v =>
      let r := rotateVertex v c angleXDeg angleYDeg angleZDeg
      { v with x := r.1, y := r.2.1, z := r.2.2 }) }

/-- The transform calls the host layer can issue after load, with their
numeric arguments. -/
inductive TransformOp where
  | rotate (angleXDeg angleYDeg angleZDeg : ℝ)
  | translate (dx dy dz : ℝ)
  | scale (factor : ℝ)
  | center
  | normalize

/-- Apply one transform call to a document. -/
noncomputable def applyOp (d : ObjectFile ℝ) : TransformOp → ObjectFile ℝ
  | .rotate ax ay az => d.rotate ax ay az
  | .translate dx dy dz => d.translate dx dy dz
  | .scale f => d.scale f
  | .center => d.center
  | .normalize => d.normalize

/-- Apply a sequence of transform calls from left to right. -/
noncomputable def applyOps (ops : List TransformOp) (d : ObjectFile ℝ) : ObjectFile ℝ :=
  ops.foldl applyOp d

/-- Reinterpret an exactly-parsed document over the reals, so the real
valued rotation can be applied to it. -/
noncomputable def toReal (d : ObjectFile ℚ) : ObjectFile ℝ :=
  { _vertices := d._vertices.map (fun v => ⟨(v.x : ℝ), (v.y : ℝ), (v.z : ℝ), (v.w : ℝ)⟩),
    _texcoords := d._texcoords.map (fun t => ⟨(t.u : ℝ), (t.v : ℝ), (t.w : ℝ)⟩),
    _normals := d._normals.map (fun t => ⟨(t.x : ℝ), (t.y : ℝ), (t.z : ℝ)⟩),
    _paramSpaceVertices := d._paramSpaceVertices.map (fun t => ⟨(t.u : ℝ), (t.v : ℝ), (t.w : ℝ)⟩),
    _faces := d._faces,
    _lines := d._lines,
    _verticesCount := d._verticesCount,
    _texcoordsCount := d._texcoordsCount,
    _normalsCount := d._normalsCount,
    _scale := (d._scale : ℝ) }

section SpecSide

variable {K : Type} [LinearOrderedField K]

/-- Arithmetic mean of the vertex positions, the way the spec words the
centroid: componentwise sum divided by the number of vertices. -/
def specCentroid (d : ObjectFile K) : K × K × K :=
  ((d._vertices.map (fun v => v.x)).sum / (d._vertices.length : K),
   (d._vertices.map (fun v => v.y)).sum / (d._vertices.length : K),
   (d._vertices.map (fun v => v.z)).sum / (d._vertices.length : K))

/-- Largest absolute value of any raw coordinate component, the way the
spec words the max extent of normalize. -/
def maxAbsSpec (d : ObjectFile K) : K :=
  (d._vertices.map (fun v => max |v.x| (max |v.y| |v.z|))).foldr max 0

/-- Standard right-handed rotation about the x axis. -/
noncomputable def rotXspec (t : ℝ) (p : ℝ × ℝ × ℝ) : ℝ × ℝ × ℝ :=
  (p.1, p.2.1 * Real.cos t - p.2.2 * Real.sin t, p.2.1 * Real.sin t + p.2.2 * Real.cos t)

/-- Standard right-handed rotation about the y axis. -/
noncomputable def rotYspec (t : ℝ) (p : ℝ × ℝ × ℝ) : ℝ × ℝ × ℝ :=
  (p.1 * Real.cos t + p.2.2 * Real.sin t, p.2.1, -p.1 * Real.sin t + p.2.2 * Real.cos t)

/-- Standard right-handed rotation about the z axis. -/
noncomputable def rotZspec (t : ℝ) (p : ℝ × ℝ × ℝ) : ℝ × ℝ × ℝ :=
  (p.1 * Real.cos t - p.2.1 * Real.sin t, p.1 * Real.sin t + p.2.1 * Real.cos t, p.2.2)

/-- Everything a transform call must leave untouched according to the
frame condition of the spec: the homogeneous w component of every vertex,
the texture coordinate, normal, parameter space vertex, face and line
sequences, the three element counters, and the length of the vertex
sequence. -/
def framePreserved (d dPost : ObjectFile K) : Prop :=
  dPost._vertices.length = d._vertices.length ∧
  dPost._vertices.map (fun v => v.w) = d._vertices.map (fun v => v.w) ∧
  dPost._texcoords = d._texcoords ∧
  dPost._normals = d._normals ∧
  dPost._paramSpaceVertices = d._paramSpaceVertices ∧
  dPost._faces = d._faces ∧
  dPost._lines = d._lines ∧
  dPost._verticesCount = d._verticesCount ∧
  dPost._texcoordsCount = d._texcoordsCount ∧
  dPost._normalsCount = d._normalsCount

/-- The field text begins with a valid numeric prefix in the sense of
strtod: after optional whitespace and an optional sign, it starts with a
digit, with a decimal point followed by a digit, or with an infinity or
nan form. (The hexadecimal form starts with the digit zero and is covered
by the digit case.) -/
def hasNumStart (s : String) : Bool :=
  let cs1 := (parseSign (s.data.dropWhile isSpaceCpp)).2
  isInfStart cs1 || isNanStart cs1 ||
  (match cs1 with
   | [] => false
   | c :: rest => c.isDigit || (c = '.' && rest.head?.any Char.isDigit))

/-- The field text begins with a valid integer prefix in the sense of
strtol: after optional whitespace and an optional sign, it starts with a
digit. -/
def hasIntStart (s : String) : Bool :=
  (parseSign (s.data.dropWhile isSpaceCpp)).2.head?.any Char.isDigit

end SpecSide

section Lemmas

variable {K : Type} [LinearOrderedField K]

theorem splitNEGo_eq_filter (d : Char) :
    ∀ (cs : List Char) (cur : Option (List Char)),
      splitNEGo d cur cs = (splitGo d cur cs).filter (fun t => t ≠ []) := by
  intro cs
  induction cs with
  | nil =>
    intro cur
    cases cur with
    | none => simp [splitNEGo, splitGo]
    | some acc =>
      by_cases h : acc = [] <;>
        simp [splitNEGo, splitGo, h, List.filter]
  | cons c cs ih =>
    intro cur
    by_cases hd : c = d
    · by_cases he : (cur.getD []) = []
      · cases cur <;>
          simp_all [splitNEGo, splitGo, List.filter, ih]
      · cases cur <;>
          simp_all [splitNEGo, splitGo, List.filter, ih]
    · cases cur <;> simp_all [splitNEGo, splitGo, ih]

theorem mk_eq_empty_iff (t : List Char) : String.mk t = "" ↔ t = [] := by
  rw [show ("" : String) = String.mk [] from rfl]
  exact ⟨fun h => by injection h, fun h => by rw [h]⟩

theorem split_without_empty_eq_filter (s : String) (d : Char) :
    split_without_empty s d = (split s d).filter (fun t => t ≠ "") := by
  unfold split_without_empty split
  rw [splitNEGo_eq_filter, List.filter_map]
  congr 1
  apply List.filter_congr
  intro t _
  simp [Function.comp, mk_eq_empty_iff]

theorem foldl_centroid (l : List (ObjVertex K)) :
    ∀ a : K × K × K,
      l.foldl (fun (a : K × K × K) v => (a.1 + v.x, a.2.1 + v.y, a.2.2 + v.z)) a =
        (a.1 + (l.map (fun v => v.x)).sum, a.2.1 + (l.map (fun v => v.y)).sum,
          a.2.2 + (l.map (fun v => v.z)).sum) := by
  induction l with
  | nil => intro a; simp
  | cons v l ih => intro a; simp [ih, add_assoc]

theorem getCenterPoint_eq (d : ObjectFile K) : d.getCenterPoint = specCentroid d := by
  unfold ObjectFile.getCenterPoint specCentroid
  rw [foldl_centroid]
  simp

theorem ite_lt_max (m t : K) : (if m < t then t else m) = max m t := by
  rcases le_or_lt t m with h | h
  · rw [if_neg (not_lt.mpr h), max_eq_left h]
  · rw [if_pos h, max_eq_right h.le]

theorem foldr_max_nonneg (L : List K) : 0 ≤ L.foldr max 0 := by
  induction L with
  | nil => simp
  | cons a L ih => exact le_trans ih (le_max_right a _)

theorem foldr_max_ub (L : List K) (a : K) (h : a ∈ L) : a ≤ L.foldr max 0 := by
  induction L with
  | nil => cases h
  | cons b L ih =>
    rcases List.mem_cons.mp h with h | h
    · rw [h]; exact le_max_left _ _
    · exact le_trans (ih h) (le_max_right b _)

theorem foldr_max_mem (L : List K) (h : L ≠ []) : L.foldr max 0 ∈ L ∨ L.foldr max 0 = 0 := by
  induction L with
  | nil => cases h rfl
  | cons a L ih =>
    by_cases hL : L = []
    · subst hL
      rcases max_choice a (0 : K) with h1 | h1 <;> simp [h1]
    · rcases max_choice a (L.foldr max 0) with h1 | h1
      · left; rw [List.foldr_cons, h1]; exact List.mem_cons_self a L
      · rcases ih hL with h2 | h2
        · left; rw [List.foldr_cons, h1]; exact List.mem_cons_of_mem a h2
        · right; rw [List.foldr_cons, h1, h2]

theorem foldl_max_from (f : ObjVertex K → K) (l : List (ObjVertex K)) :
    ∀ m : K, 0 ≤ m →
      l.foldl (fun m v => max m (f v)) m = max m ((l.map f).foldr max 0) := by
  induction l with
  | nil => intro m hm; simp [max_eq_left hm]
  | cons v l ih =>
    intro m hm
    rw [List.foldl_cons, ih (max m (f v)) (le_trans hm (le_max_left _ _)),
      List.map_cons, List.foldr_cons, max_assoc]

theorem normMax_eq (d : ObjectFile K) : d.normMax = maxAbsSpec d := by
  unfold ObjectFile.normMax maxAbsSpec
  have hstep : (fun (m : K) (v : ObjVertex K) =>
      let m1 := if m < |v.x| then |v.x| else m
      let m2 := if m1 < |v.y| then |v.y| else m1
      if m2 < |v.z| then |v.z| else m2) =
      fun (m : K) (v : ObjVertex K) => max m (max |v.x| (max |v.y| |v.z|)) := by
    funext m v
    simp only [ite_lt_max, max_assoc]
  rw [hstep, foldl_max_from _ _ 0 le_rfl, max_eq_right (foldr_max_nonneg _)]

theorem runStod_error (onInvalid : ObjErr) (t : String) (e : ObjErr)
    (h : runStod onInvalid t = .error e) : e = onInvalid ∨ e = .stodOutOfRange := by
  unfold runStod at h
  cases hm : stodModel t with
  | ok v => rw [hm] at h; cases h
  | error se => rw [hm] at h; cases se <;> simp_all

theorem runStoi_error (onInvalid : ObjErr) (t : String) (e : ObjErr)
    (h : runStoi onInvalid t = .error e) : e = onInvalid ∨ e = .stoiOutOfRange := by
  unfold runStoi at h
  cases hm : stoiModel t with
  | ok v => rw [hm] at h; cases h
  | error se => rw [hm] at h; cases se <;> simp_all

theorem parseVertex_error (line : String) (e : ObjErr) (h : parseVertex line = .error e) :
    e = .invalidVertexLine line ∨ e = .invalidVertexValues line ∨ e = .stodOutOfRange := by
  simp only [parseVertex] at h
  split at h
  · exact Or.inl (by injection h with h1; exact h1.symm)
  · repeat' split at h
    all_goals try cases h
    all_goals rename_i heq
    all_goals rcases runStod_error _ _ _ heq with h1 | h1 <;> simp [h1]

theorem parseTextureCoordinate_error (line : String) (e : ObjErr)
    (h : parseTextureCoordinate line = .error e) :
    e = .invalidTexCoordLine line ∨ e = .invalidTexCoordValues line ∨ e = .stodOutOfRange := by
  simp only [parseTextureCoordinate] at h
  split at h
  · exact Or.inl (by injection h with h1; exact h1.symm)
  · repeat' split at h
    all_goals try cases h
    all_goals rename_i heq
    all_goals rcases runStod_error _ _ _ heq with h1 | h1 <;> simp [h1]

theorem parseNormal_error (line : String) (e : ObjErr) (h : parseNormal line = .error e) :
    e = .invalidNormalLine line ∨ e = .invalidNormalValues line ∨ e = .stodOutOfRange := by
  simp only [parseNormal] at h
  split at h
  · exact Or.inl (by injection h with h1; exact h1.symm)
  · repeat' split at h
    all_goals try cases h
    all_goals rename_i heq
    all_goals rcases runStod_error _ _ _ heq with h1 | h1 <;> simp [h1]

theorem parseParameterSpaceVertex_error (line : String) (e : ObjErr)
    (h : parseParameterSpaceVertex line = .error e) :
    e = .invalidParamLine line ∨ e = .invalidParamValues line ∨ e = .stodOutOfRange := by
  simp only [parseParameterSpaceVertex] at h
  split at h
  · exact Or.inl (by injection h with h1; exact h1.symm)
  · repeat' split at h
    all_goals try cases h
    all_goals rename_i heq
    all_goals rcases runStod_error _ _ _ heq with h1 | h1 <;> simp [h1]

theorem faceFieldParse_error (line t : String) (e : ObjErr)
    (h : faceFieldParse line t = .error e) :
    e = .invalidFaceLine line ∨ e = .invalidFaceValues line ∨ e = .stoiOutOfRange := by
  simp only [faceFieldParse] at h
  split at h
  · exact Or.inl (by injection h with h1; exact h1.symm)
  · repeat' split at h
    all_goals try cases h
    all_goals rename_i heq
    all_goals try (rcases runStoi_error _ _ _ heq with h1 | h1 <;> simp [h1])
    all_goals repeat' split at heq
    all_goals try cases heq
    all_goals rename_i heq2
    all_goals rcases runStoi_error _ _ _ heq2 with h1 | h1 <;> simp [h1]

theorem exceptMapList_error {α β : Type} (f : α → Except ObjErr β) (l : List α) (e : ObjErr)
    (h : exceptMapList f l = .error e) : ∃ a ∈ l, f a = .error e := by
  induction l with
  | nil => cases h
  | cons a l ih =>
    simp only [exceptMapList] at h
    split at h
    · cases h; rename_i heq
      exact ⟨a, List.mem_cons_self a l, heq⟩
    · split at h
      · cases h; rename_i heq
        obtain ⟨x, hx, hfx⟩ := ih heq
        exact ⟨x, List.mem_cons_of_mem a hx, hfx⟩
      · cases h

theorem parseFace_error (line : String) (e : ObjErr) (h : parseFace line = .error e) :
    e = .invalidFaceLine line ∨ e = .invalidFaceValues line ∨ e = .stoiOutOfRange := by
  simp only [parseFace] at h
  split at h
  · exact Or.inl (by injection h with h1; exact h1.symm)
  · split at h
    · cases h; rename_i heq
      obtain ⟨a, _, hfa⟩ := exceptMapList_error _ _ _ heq
      exact faceFieldParse_error _ _ _ hfa
    · cases h

theorem checkFaceVertex_error (vc tc nc n : Nat) (fv : ObjFaceVertex) (e : ObjErr)
    (h : checkFaceVertex vc tc nc n fv = .error e) :
    e = .vertexIndexOOB n ∨ e = .texCoordIndexOOB n ∨ e = .normalIndexOOB n := by
  simp only [checkFaceVertex] at h
  repeat' split at h
  all_goals cases h
  · exact Or.inl rfl
  · exact Or.inr (Or.inl rfl)
  · exact Or.inr (Or.inr rfl)

theorem loadLine_error (doc : ObjectFile ℚ) (n : Nat) (l : String) (e : ObjErr)
    (h : loadLine doc n l = .error e) :
    ObjErr.lineNum e = some n ∨ ObjErr.lineText e = some l ∨
      e = .stodOutOfRange ∨ e = .stoiOutOfRange := by
  simp only [loadLine] at h
  repeat' split at h
  all_goals try cases h
  · simp [ObjErr.lineNum]
  · rename_i heq
    rcases parseVertex_error _ _ heq with h1 | h1 | h1 <;> simp [h1, ObjErr.lineText]
  · rename_i heq
    rcases parseTextureCoordinate_error _ _ heq with h1 | h1 | h1 <;>
      simp [h1, ObjErr.lineText]
  · rename_i heq
    rcases parseNormal_error _ _ heq with h1 | h1 | h1 <;> simp [h1, ObjErr.lineText]
  · rename_i heq
    rcases parseParameterSpaceVertex_error _ _ heq with h1 | h1 | h1 <;>
      simp [h1, ObjErr.lineText]
  · rename_i heq
    rcases parseFace_error _ _ heq with h1 | h1 | h1 <;> simp [h1, ObjErr.lineText]
  · rename_i heq
    obtain ⟨a, _, hfa⟩ := exceptMapList_error _ _ _ heq
    rcases checkFaceVertex_error _ _ _ _ _ _ hfa with h1 | h1 | h1 <;>
      simp [h1, ObjErr.lineNum]
  · simp [ObjErr.lineNum]

theorem loadFrom_error :
    ∀ (ls : List String) (doc : ObjectFile ℚ) (k : Nat) (e : ObjErr),
      loadFrom doc k ls = .error e →
      (∃ n, ObjErr.lineNum e = some n ∧ k + 1 ≤ n ∧ n ≤ k + ls.length) ∨
        (∃ s ∈ ls, ObjErr.lineText e = some s) ∨
        e = .stodOutOfRange ∨ e = .stoiOutOfRange := by
  intro ls
  induction ls with
  | nil => intro doc k e h; cases h
  | cons l ls ih =>
    intro doc k e h
    simp only [loadFrom] at h
    split at h
    · cases h; rename_i heq
      rcases loadLine_error _ _ _ _ heq with h1 | h1 | h1 | h1
      · exact Or.inl ⟨k + 1, h1, le_refl _, by simp⟩
      · exact Or.inr (Or.inl ⟨l, List.mem_cons_self _ _, h1⟩)
      · exact Or.inr (Or.inr (Or.inl h1))
      · exact Or.inr (Or.inr (Or.inr h1))
    · rename_i d heq
      rcases ih d (k + 1) e h with h1 | h1 | h1 | h1
      · obtain ⟨n, hn, h2, h3⟩ := h1
        exact Or.inl ⟨n, hn, by omega, by simp only [List.length_cons]; omega⟩
      · obtain ⟨s, hs, h2⟩ := h1
        exact Or.inr (Or.inl ⟨s, List.mem_cons_of_mem _ hs, h2⟩)
      · exact Or.inr (Or.inr (Or.inl h1))
      · exact Or.inr (Or.inr (Or.inr h1))

theorem loadLine_scale (doc : ObjectFile ℚ) (n : Nat) (l : String) (d : ObjectFile ℚ)
    (h : loadLine doc n l = .ok d) : d._scale = doc._scale := by
  simp only [loadLine] at h
  repeat' split at h
  all_goals cases h
  all_goals rfl

theorem loadFrom_scale :
    ∀ (ls : List String) (doc : ObjectFile ℚ) (k : Nat) (d : ObjectFile ℚ),
      loadFrom doc k ls = .ok d → d._scale = doc._scale := by
  intro ls
  induction ls with
  | nil => intro doc k d h; cases h; rfl
  | cons l ls ih =>
    intro doc k d h
    simp only [loadFrom] at h
    split at h
    · cases h
    · rename_i d1 heq
      rw [ih d1 (k + 1) d h, loadLine_scale doc (k + 1) l d1 heq]

theorem load_scale (lines : List String) (d : ObjectFile ℚ) (h : load lines = .ok d) :
    d._scale = 1 := by
  have := loadFrom_scale lines .init 0 d h
  simpa [ObjectFile.init] using this

theorem translate_framePreserved (d : ObjectFile K) (dx dy dz : K) :
    framePreserved d (d.translate dx dy dz) := by
  unfold framePreserved ObjectFile.translate
  simp

theorem scale_framePreserved (d : ObjectFile K) (f : K) :
    framePreserved d (d.scale f) := by
  unfold ObjectFile.scale
  split
  · unfold framePreserved; simp
  · unfold framePreserved; simp

theorem center_framePreserved (d : ObjectFile K) : framePreserved d d.center := by
  unfold framePreserved ObjectFile.center
  simp

theorem normalize_framePreserved (d : ObjectFile K) : framePreserved d d.normalize := by
  unfold framePreserved ObjectFile.normalize
  simp

theorem rotate_framePreserved (d : ObjectFile ℝ) (ax ay az : ℝ) :
    framePreserved d (d.rotate ax ay az) := by
  unfold framePreserved ObjectFile.rotate
  simp

theorem translate_scaleAcc (d : ObjectFile K) (dx dy dz : K) :
    (d.translate dx dy dz)._scale = d._scale := rfl

theorem center_scaleAcc (d : ObjectFile K) : d.center._scale = d._scale := rfl

theorem normalize_scaleAcc (d : ObjectFile K) : d.normalize._scale = d._scale := rfl

theorem rotate_scaleAcc (d : ObjectFile ℝ) (ax ay az : ℝ) :
    (d.rotate ax ay az)._scale = d._scale := rfl

theorem scale_noop (d : ObjectFile K) (f : K)
    (h : f = 0 ∨ d._scale * f < 1 / 100 ∨ 2 < d._scale * f) : d.scale f = d := by
  unfold ObjectFile.scale
  rw [if_pos h]

theorem applyOp_scaleAcc (d : ObjectFile ℝ) (op : TransformOp)
    (h : 1 / 100 ≤ d._scale ∧ d._scale ≤ 2) :
    1 / 100 ≤ (applyOp d op)._scale ∧ (applyOp d op)._scale ≤ 2 := by
  cases op with
  | scale f =>
    simp only [applyOp, ObjectFile.scale]
    split
    · exact h
    · rename_i hc
      push_neg at hc
      exact ⟨hc.2.1, hc.2.2⟩
  | rotate ax ay az => simpa [applyOp, rotate_scaleAcc] using h
  | translate dx dy dz => simpa [applyOp, translate_scaleAcc] using h
  | center => simpa [applyOp, center_scaleAcc] using h
  | normalize => simpa [applyOp, normalize_scaleAcc] using h

theorem ifOOR_ne_invalid {α : Type} (P : Prop) [Decidable P] (a : α) :
    (if P then Except.error StrtoErr.outOfRange else Except.ok a) ≠
      Except.error StrtoErr.invalidArgument := by
  split <;> simp

theorem stoiModel_invalid_iff (s : String) :
    stoiModel s = .error .invalidArgument ↔ hasIntStart s = false := by
  unfold stoiModel hasIntStart
  dsimp only
  generalize (parseSign (s.data.dropWhile isSpaceCpp)).1 = sgn
  generalize (parseSign (s.data.dropWhile isSpaceCpp)).2 = cs1
  cases cs1 with
  | nil => simp
  | cons c rest =>
    by_cases hd : c.isDigit
    · apply iff_of_false
      · intro h
        rw [if_neg (by simp [List.takeWhile_cons, hd])] at h
        exact ifOOR_ne_invalid _ _ h
      · simp [hd]
    · simp [List.takeWhile_cons, hd]

theorem digit_ne (c r : Char) (h : c.isDigit = true) (hr : r.isDigit = false) : c ≠ r := by
  intro e
  rw [e, hr] at h
  exact Bool.noConfusion h

theorem isHexStart_head (l : List Char) (h : isHexStart l = true) : l.head? = some '0' := by
  unfold isHexStart at h
  simp only [Bool.and_eq_true, decide_eq_true_eq] at h
  tauto

theorem stodModel_invalid_iff (s : String) :
    stodModel s = .error .invalidArgument ↔ hasNumStart s = false := by
  unfold stodModel hasNumStart
  dsimp only
  generalize (parseSign (s.data.dropWhile isSpaceCpp)).1 = sgn
  generalize (parseSign (s.data.dropWhile isSpaceCpp)).2 = cs1
  by_cases hinf : isInfStart cs1 = true
  · rw [if_pos hinf]
    apply iff_of_false
    · intro h; cases h
    · simp [hinf]
  · rw [if_neg hinf]
    have hinfF : isInfStart cs1 = false := by simpa using hinf
    by_cases hnan : isNanStart cs1 = true
    · rw [if_pos hnan]
      apply iff_of_false
      · intro h; cases h
      · simp [hnan]
    · rw [if_neg hnan]
      have hnanF : isNanStart cs1 = false := by simpa using hnan
      by_cases hhex : isHexStart cs1 = true
      · rw [if_pos hhex]
        apply iff_of_false
        · intro h
          exact ifOOR_ne_invalid _ _ h
        · have h0 := isHexStart_head cs1 hhex
          cases cs1 with
          | nil => simp at h0
          | cons c rest =>
            simp only [List.head?_cons, Option.some.injEq] at h0
            subst h0
            simp
      · rw [if_neg hhex]
        cases cs1 with
        | nil => simp [hinfF, hnanF]
        | cons c rest =>
          by_cases hd : c.isDigit
          · apply iff_of_false
            · intro h
              rw [if_neg (by simp [List.takeWhile_cons, hd])] at h
              exact ifOOR_ne_invalid _ _ h
            · simp [hd]
          · by_cases hdot : c = '.'
            · subst hdot
              cases rest with
              | nil =>
                simp [List.takeWhile_cons, hd, List.dropWhile_cons, hinfF, hnanF]
              | cons c2 t =>
                by_cases hd2 : c2.isDigit
                · apply iff_of_false
                  · intro h
                    rw [if_neg (by
                      simp [List.takeWhile_cons, List.dropWhile_cons, hd, hd2])] at h
                    exact ifOOR_ne_invalid _ _ h
                  · simp [hd, hd2]
                · simp [List.takeWhile_cons, hd, List.dropWhile_cons, hd2, hinfF, hnanF]
            · simp [List.takeWhile_cons, hd, List.dropWhile_cons, hdot, hinfF, hnanF]

theorem takeWhile_all (p : Char → Bool) (l : List Char) (h : ∀ c ∈ l, p c = true) :
    l.takeWhile p = l := by
  induction l with
  | nil => rfl
  | cons a l ih =>
    rw [List.takeWhile_cons, if_pos (h a (List.mem_cons_self a l)),
      ih (fun c hc => h c (List.mem_cons_of_mem a hc))]

theorem dropWhile_all (p : Char → Bool) (l : List Char) (h : ∀ c ∈ l, p c = true) :
    l.dropWhile p = [] := by
  induction l with
  | nil => rfl
  | cons a l ih =>
    rw [List.dropWhile_cons, if_pos (h a (List.mem_cons_self a l)),
      ih (fun c hc => h c (List.mem_cons_of_mem a hc))]

theorem takeWhile_append_stop (p : Char → Bool) (l r : List Char)
    (hl : ∀ c ∈ l, p c = true) (hr : ∀ c, r.head? = some c → p c = false) :
    (l ++ r).takeWhile p = l := by
  induction l with
  | nil =>
    cases r with
    | nil => rfl
    | cons c t => simp [List.takeWhile_cons, hr c rfl]
  | cons a l ih =>
    rw [List.cons_append, List.takeWhile_cons, if_pos (hl a (List.mem_cons_self a l)),
      ih (fun c hc => hl c (List.mem_cons_of_mem a hc))]

theorem dropWhile_append_stop (p : Char → Bool) (l r : List Char)
    (hl : ∀ c ∈ l, p c = true) (hr : ∀ c, r.head? = some c → p c = false) :
    (l ++ r).dropWhile p = r := by
  induction l with
  | nil =>
    cases r with
    | nil => rfl
    | cons c t => simp [List.dropWhile_cons, hr c rfl]
  | cons a l ih =>
    rw [List.cons_append, List.dropWhile_cons, if_pos (hl a (List.mem_cons_self a l)),
      ih (fun c hc => hl c (List.mem_cons_of_mem a hc))]

theorem digit_not_space (c : Char) (h : c.isDigit = true) : isSpaceCpp c = false := by
  simp only [isSpaceCpp, decide_eq_false_iff_not]
  rintro (rfl | rfl | rfl | rfl | rfl | rfl) <;> simp at h

theorem parseSign_no_sign (c : Char) (l : List Char) (h1 : c ≠ '-') (h2 : c ≠ '+') :
    parseSign (c :: l) = (false, c :: l) := by
  unfold parseSign
  split <;> simp_all

theorem digit_ne_dash (c : Char) (h : c.isDigit = true) : c ≠ '-' := by
  rintro rfl; simp at h

theorem digit_ne_plus (c : Char) (h : c.isDigit = true) : c ≠ '+' := by
  rintro rfl; simp at h

theorem stodModel_digits_append (ds suffix : List Char) (h1 : ds ≠ [])
    (h2 : ∀ c ∈ ds, c.isDigit = true)
    (h3 : ∀ c, suffix.head? = some c →
      c.isDigit = false ∧ c ≠ '.' ∧ c ≠ 'e' ∧ c ≠ 'E' ∧ c ≠ 'x' ∧ c ≠ 'X') :
    stodModel (String.mk (ds ++ suffix)) = stodModel (String.mk ds) := by
  obtain ⟨d0, ds', rfl⟩ := List.exists_cons_of_ne_nil h1
  have hd0 : d0.isDigit = true := h2 d0 (List.mem_cons_self _ _)
  have hsp : isSpaceCpp d0 = false := digit_not_space d0 hd0
  have h3d : ∀ c, suffix.head? = some c → Char.isDigit c = false := fun c hc => (h3 c hc).1
  have hdot : ¬ (suffix.head? = some '.') := fun hc => absurd rfl (h3 '.' hc).2.1
  have hee : ¬ (suffix.head? = some 'e' ∨ suffix.head? = some 'E') := by
    rintro (hc | hc)
    · exact absurd rfl (h3 'e' hc).2.2.1
    · exact absurd rfl (h3 'E' hc).2.2.2.1
  have hiA : ¬ (isInfStart (d0 :: (ds' ++ suffix)) = true) := by
    unfold isInfStart
    simp [digit_ne d0 'i' hd0 (by decide), digit_ne d0 'I' hd0 (by decide)]
  have hiB : ¬ (isInfStart (d0 :: ds') = true) := by
    unfold isInfStart
    simp [digit_ne d0 'i' hd0 (by decide), digit_ne d0 'I' hd0 (by decide)]
  have hnA : ¬ (isNanStart (d0 :: (ds' ++ suffix)) = true) := by
    unfold isNanStart
    simp [digit_ne d0 'n' hd0 (by decide), digit_ne d0 'N' hd0 (by decide)]
  have hnB : ¬ (isNanStart (d0 :: ds') = true) := by
    unfold isNanStart
    simp [digit_ne d0 'n' hd0 (by decide), digit_ne d0 'N' hd0 (by decide)]
  have hxA : ¬ (isHexStart (d0 :: (ds' ++ suffix)) = true) := by
    unfold isHexStart
    cases ds' with
    | nil =>
      cases hs : suffix with
      | nil => simp
      | cons a t =>
        have ha := h3 a (by simp [hs])
        simp [hs, ha.2.2.2.2.1, ha.2.2.2.2.2]
    | cons b ds'' =>
      have hb : b.isDigit = true :=
        h2 b (List.mem_cons_of_mem d0 (List.mem_cons_self b ds''))
      simp [digit_ne b 'x' hb (by decide), digit_ne b 'X' hb (by decide)]
  have hxB : ¬ (isHexStart (d0 :: ds') = true) := by
    unfold isHexStart
    cases ds' with
    | nil => simp
    | cons b ds'' =>
      have hb : b.isDigit = true :=
        h2 b (List.mem_cons_of_mem d0 (List.mem_cons_self b ds''))
      simp [digit_ne b 'x' hb (by decide), digit_ne b 'X' hb (by decide)]
  unfold stodModel
  dsimp only
  simp only [List.cons_append, List.dropWhile_cons, hsp, Bool.false_eq_true, if_false]
  rw [parseSign_no_sign d0 (ds' ++ suffix) (digit_ne_dash d0 hd0) (digit_ne_plus d0 hd0),
    parseSign_no_sign d0 ds' (digit_ne_dash d0 hd0) (digit_ne_plus d0 hd0)]
  dsimp only
  rw [if_neg hiA, if_neg hiB, if_neg hnA, if_neg hnB, if_neg hxA, if_neg hxB]
  rw [show d0 :: (ds' ++ suffix) = (d0 :: ds') ++ suffix from rfl]
  rw [takeWhile_append_stop Char.isDigit (d0 :: ds') suffix h2 h3d,
    dropWhile_append_stop Char.isDigit (d0 :: ds') suffix h2 h3d,
    takeWhile_all Char.isDigit (d0 :: ds') h2, dropWhile_all Char.isDigit (d0 :: ds') h2]
  rw [if_neg hdot, if_neg (show ¬ (([] : List Char).head? = some '.') by simp)]
  dsimp only
  rw [if_neg hee, if_neg (show ¬ (([] : List Char).head? = some 'e' ∨
    ([] : List Char).head? = some 'E') by simp)]

theorem runStod_invalid_iff (onInvalid : ObjErr) (t : String)
    (hne : onInvalid ≠ .stodOutOfRange) :
    runStod onInvalid t = .error onInvalid ↔ hasNumStart t = false := by
  rw [← stodModel_invalid_iff]
  unfold runStod
  cases hm : stodModel t with
  | ok v => simp
  | error se => cases se <;> simp [Ne.symm hne]

theorem runStoi_invalid_iff (onInvalid : ObjErr) (t : String)
    (hne : onInvalid ≠ .stoiOutOfRange) :
    runStoi onInvalid t = .error onInvalid ↔ hasIntStart t = false := by
  rw [← stoiModel_invalid_iff]
  unfold runStoi
  cases hm : stoiModel t with
  | ok v => simp
  | error se => cases se <;> simp [Ne.symm hne]

theorem runStod_ok (onInvalid : ObjErr) (t : String) (v : StodVal) (h : stodModel t = .ok v) :
    runStod onInvalid t = .ok v.toRat := by
  unfold runStod
  rw [h]

theorem runStoi_ok (onInvalid : ObjErr) (t : String) (v : ℤ) (h : stoiModel t = .ok v) :
    runStoi onInvalid t = .ok v := by
  unfold runStoi
  rw [h]

theorem runStod_oor (onInvalid : ObjErr) (t : String)
    (h : stodModel t = .error .outOfRange) :
    runStod onInvalid t = .error .stodOutOfRange := by
  unfold runStod
  rw [h]

theorem runStoi_oor (onInvalid : ObjErr) (t : String)
    (h : stoiModel t = .error .outOfRange) :
    runStoi onInvalid t = .error .stoiOutOfRange := by
  unfold runStoi
  rw [h]

theorem applyOps_scaleAcc (ops : List TransformOp) :
    ∀ d : ObjectFile ℝ, 1 / 100 ≤ d._scale ∧ d._scale ≤ 2 →
      1 / 100 ≤ (applyOps ops d)._scale ∧ (applyOps ops d)._scale ≤ 2 := by
  induction ops with
  | nil => intro d h; exact h
  | cons op ops ih =>
    intro d h
    exact ih (applyOp d op) (applyOp_scaleAcc d op h)

end Lemmas

section Claims

variable {K : Type} [LinearOrderedField K]

/-- C1: during load every face-vertex reference is normalized against the
running count n of the referenced element type: a negative raw index i
becomes n + i, a nonnegative raw index becomes i - 1, and per reference
the load fails with the out-of-bounds error carrying the current line
number exactly when a normalized index violates 0 <= idx < n, checking the
vertex index first; on success the stored reference holds exactly the
normalized indices. -/
theorem c1_face_index_normalization (vc tc nc ln : Nat) (fv : ObjFaceVertex) :
    (∀ (n : Nat) (i : ℤ),
      (i < 0 → normIdx n i = (n : ℤ) + i) ∧ (0 ≤ i → normIdx n i = i - 1)) ∧
    (∀ (n : Nat) (i : ℤ), ¬ idxOutOfBounds n i ↔ 0 ≤ i ∧ i < (n : ℤ)) ∧
    (checkFaceVertex vc tc nc ln fv =
        .ok ⟨normIdx vc fv.vertexIndex, fv.textureCoordinateIndex.map (normIdx tc),
          fv.normalIndex.map (normIdx nc)⟩ ↔
      (¬ idxOutOfBounds vc (normIdx vc fv.vertexIndex) ∧
        (∀ i ∈ fv.textureCoordinateIndex, ¬ idxOutOfBounds tc (normIdx tc i)) ∧
        (∀ i ∈ fv.normalIndex, ¬ idxOutOfBounds nc (normIdx nc i)))) ∧
    (idxOutOfBounds vc (normIdx vc fv.vertexIndex) →
      checkFaceVertex vc tc nc ln fv = .error (.vertexIndexOOB ln)) ∧
    (∀ e, checkFaceVertex vc tc nc ln fv = .error e →
      e = .vertexIndexOOB ln ∨ e = .texCoordIndexOOB ln ∨ e = .normalIndexOOB ln) := by
  refine ⟨?_, ?_, ?_, ?_, ?_⟩
  · intro n i
    constructor
    · intro h; unfold normIdx; rw [if_pos h]
    · intro h; unfold normIdx; rw [if_neg (not_lt.mpr h)]
  · intro n i
    unfold idxOutOfBounds
    rw [not_or, not_lt, not_le]
  · rcases fv with ⟨vi, ti, ni⟩
    cases ti <;> cases ni <;>
      (unfold checkFaceVertex; dsimp only; split_ifs <;> simp_all)
  · intro h
    unfold checkFaceVertex
    dsimp only
    rw [if_pos h]
  · exact checkFaceVertex_error vc tc nc ln fv

/-- Witness for C1 at the concrete inputs of the claim: with 5 vertices
declared, raw index -1 resolves to 4 and -5 resolves to 0, while -6 fails
with the vertex out-of-bounds error of the current line. -/
theorem c1_face_index_normalization_witness :
    checkFaceVertex 5 0 0 7 ⟨-1, none, none⟩ = .ok ⟨4, none, none⟩ ∧
    checkFaceVertex 5 0 0 7 ⟨-5, none, none⟩ = .ok ⟨0, none, none⟩ ∧
    checkFaceVertex 5 0 0 7 ⟨-6, none, none⟩ = .error (.vertexIndexOOB 7) := by
  refine ⟨?_, ?_, ?_⟩
  · exact (c1_face_index_normalization 5 0 0 7 ⟨-1, none, none⟩).2.2.1.mpr
      ⟨by decide, by simp, by simp⟩
  · exact (c1_face_index_normalization 5 0 0 7 ⟨-5, none, none⟩).2.2.1.mpr
      ⟨by decide, by simp, by simp⟩
  · exact (c1_face_index_normalization 5 0 0 7 ⟨-6, none, none⟩).2.2.2.1 (by decide)

/-- C2: scale is a silent no-op exactly when the factor is zero or the
resulting cumulative scale leaves the interval 0.01 to 2; otherwise it
multiplies the accumulator by the factor and moves every vertex to
centroid + (vertex - centroid) * factor, the centroid being the arithmetic
mean of the vertex positions. -/
theorem c2_scale_guard (d : ObjectFile K) (factor : K) :
    ((factor = 0 ∨ d._scale * factor < 1 / 100 ∨ 2 < d._scale * factor) →
      d.scale factor = d) ∧
    (factor ≠ 0 → 1 / 100 ≤ d._scale * factor → d._scale * factor ≤ 2 →
      (d.scale factor)._scale = d._scale * factor ∧
      (d.scale factor)._vertices = d._vertices.map (fun v =>
        { v with
          x := (specCentroid d).1 + (v.x - (specCentroid d).1) * factor,
          y := (specCentroid d).2.1 + (v.y - (specCentroid d).2.1) * factor,
          z := (specCentroid d).2.2 + (v.z - (specCentroid d).2.2) * factor })) := by
  constructor
  · exact scale_noop d factor
  · intro h0 h1 h2
    have hcond : ¬ (factor = 0 ∨ d._scale * factor < 1 / 100 ∨ 2 < d._scale * factor) := by
      push_neg
      exact ⟨h0, h1, h2⟩
    unfold ObjectFile.scale
    rw [if_neg hcond]
    dsimp only
    rw [getCenterPoint_eq]
    exact ⟨rfl, rfl⟩

/-- Witness for C2 on a concrete two-vertex document with accumulator 1
and factor 2. -/
theorem c2_scale_guard_witness :
    ((ObjectFile.mk [⟨0, 0, 0, 1⟩, ⟨2, 0, 0, 1⟩] [] [] [] [] [] 2 0 0 (1 : ℚ)).scale 2)._scale =
      (ObjectFile.mk [⟨0, 0, 0, 1⟩, ⟨2, 0, 0, 1⟩] [] [] [] [] [] 2 0 0 (1 : ℚ))._scale * 2 ∧
    ((ObjectFile.mk [⟨0, 0, 0, 1⟩, ⟨2, 0, 0, 1⟩] [] [] [] [] [] 2 0 0 (1 : ℚ)).scale 0) =
      ObjectFile.mk [⟨0, 0, 0, 1⟩, ⟨2, 0, 0, 1⟩] [] [] [] [] [] 2 0 0 (1 : ℚ) :=
  ⟨((c2_scale_guard (ObjectFile.mk [⟨0, 0, 0, 1⟩, ⟨2, 0, 0, 1⟩] [] [] [] [] [] 2 0 0 1) 2).2
      (by norm_num) (by norm_num) (by norm_num)).1,
    (c2_scale_guard (ObjectFile.mk [⟨0, 0, 0, 1⟩, ⟨2, 0, 0, 1⟩] [] [] [] [] [] 2 0 0 1) 0).1
      (Or.inl rfl)⟩

/-- C5: normalize computes its max extent as the largest absolute value of
any raw coordinate component, measured from the origin and attained at
some vertex, and remaps every component as
(component - centroid component) / max with the centroid the arithmetic
mean of the vertex positions. -/
theorem c5_normalize_max_extent (d : ObjectFile K) (h : d._vertices ≠ []) :
    (d.normalize)._vertices = d._vertices.map (fun v =>
      { v with
        x := (v.x - (specCentroid d).1) / maxAbsSpec d,
        y := (v.y - (specCentroid d).2.1) / maxAbsSpec d,
        z := (v.z - (specCentroid d).2.2) / maxAbsSpec d }) ∧
    (∀ v ∈ d._vertices,
      |v.x| ≤ maxAbsSpec d ∧ |v.y| ≤ maxAbsSpec d ∧ |v.z| ≤ maxAbsSpec d) ∧
    (∃ v ∈ d._vertices,
      maxAbsSpec d = |v.x| ∨ maxAbsSpec d = |v.y| ∨ maxAbsSpec d = |v.z|) := by
  refine ⟨?_, ?_, ?_⟩
  · unfold ObjectFile.normalize
    dsimp only
    rw [getCenterPoint_eq, normMax_eq]
  · intro v hv
    have hub := foldr_max_ub (d._vertices.map (fun v => max |v.x| (max |v.y| |v.z|)))
      (max |v.x| (max |v.y| |v.z|)) (List.mem_map_of_mem _ hv)
    unfold maxAbsSpec
    exact ⟨le_trans (le_max_left _ _) hub,
      le_trans (le_trans (le_max_left _ _) (le_max_right _ _)) hub,
      le_trans (le_trans (le_max_right _ _) (le_max_right _ _)) hub⟩
  · have hne : d._vertices.map (fun v => max |v.x| (max |v.y| |v.z|)) ≠ [] := by
      simpa using h
    rcases foldr_max_mem _ hne with hmem | h0
    · obtain ⟨v, hv, hfv⟩ := List.mem_map.mp hmem
      refine ⟨v, hv, ?_⟩
      have hval : maxAbsSpec d = max |v.x| (max |v.y| |v.z|) := hfv.symm
      rcases max_choice |v.x| (max |v.y| |v.z|) with h1 | h1
      · left; rw [hval, h1]
      · rcases max_choice |v.y| |v.z| with h2 | h2
        · right; left; rw [hval, h1, h2]
        · right; right; rw [hval, h1, h2]
    · obtain ⟨v0, t, hvt⟩ := List.exists_cons_of_ne_nil h
      have hv0 : v0 ∈ d._vertices := by rw [hvt]; exact List.mem_cons_self _ _
      have hub := foldr_max_ub (d._vertices.map (fun v => max |v.x| (max |v.y| |v.z|)))
        (max |v0.x| (max |v0.y| |v0.z|)) (List.mem_map_of_mem _ hv0)
      have hzero : maxAbsSpec d = 0 := h0
      refine ⟨v0, hv0, Or.inl ?_⟩
      rw [hzero]
      have hxle : |v0.x| ≤ (0 : K) := by
        calc |v0.x| ≤ max |v0.x| (max |v0.y| |v0.z|) := le_max_left _ _
          _ ≤ maxAbsSpec d := hub
          _ = 0 := hzero
      exact (le_antisymm hxle (abs_nonneg _)).symm

/-- Witness for C5 on a concrete two-vertex document. -/
theorem c5_normalize_max_extent_witness :
    ((ObjectFile.mk [⟨0, 0, 0, 1⟩, ⟨2, 0, 0, 1⟩] [] [] [] [] [] 2 0 0 (1 : ℚ)).normalize)._vertices =
      (ObjectFile.mk [⟨0, 0, 0, 1⟩, ⟨2, 0, 0, 1⟩] [] [] [] [] [] 2 0 0 (1 : ℚ))._vertices.map
        (fun v =>
          { v with
            x := (v.x - (specCentroid (ObjectFile.mk [⟨0, 0, 0, 1⟩, ⟨2, 0, 0, 1⟩]
              [] [] [] [] [] 2 0 0 (1 : ℚ))).1) /
              maxAbsSpec (ObjectFile.mk [⟨0, 0, 0, 1⟩, ⟨2, 0, 0, 1⟩] [] [] [] [] [] 2 0 0 (1 : ℚ)),
            y := (v.y - (specCentroid (ObjectFile.mk [⟨0, 0, 0, 1⟩, ⟨2, 0, 0, 1⟩]
              [] [] [] [] [] 2 0 0 (1 : ℚ))).2.1) /
              maxAbsSpec (ObjectFile.mk [⟨0, 0, 0, 1⟩, ⟨2, 0, 0, 1⟩] [] [] [] [] [] 2 0 0 (1 : ℚ)),
            z := (v.z - (specCentroid (ObjectFile.mk [⟨0, 0, 0, 1⟩, ⟨2, 0, 0, 1⟩]
              [] [] [] [] [] 2 0 0 (1 : ℚ))).2.2) /
              maxAbsSpec (ObjectFile.mk [⟨0, 0, 0, 1⟩, ⟨2, 0, 0, 1⟩]
                [] [] [] [] [] 2 0 0 (1 : ℚ)) }) :=
  (c5_normalize_max_extent
    (ObjectFile.mk [⟨0, 0, 0, 1⟩, ⟨2, 0, 0, 1⟩] [] [] [] [] [] 2 0 0 (1 : ℚ))
    (by decide)).1

/-- C6: rotate replaces every vertex position by translating it by minus
the centroid, applying the standard right-handed x rotation by the angle
converted to radians, then the y rotation, then the z rotation, each
applied to the already-rotated vector, and translating back by the
centroid. -/
theorem c6_rotate_composition (d : ObjectFile ℝ) (ax ay az : ℝ) :
    (d.rotate ax ay az)._vertices = d._vertices.map (fun v =>
      let c := specCentroid d
      let p := rotZspec (radiansOf az) (rotYspec (radiansOf ay) (rotXspec (radiansOf ax)
        (v.x - c.1, v.y - c.2.1, v.z - c.2.2)))
      { v with x := p.1 + c.1, y := p.2.1 + c.2.1, z := p.2.2 + c.2.2 }) := by
  unfold ObjectFile.rotate rotateVertex rotXspec rotYspec rotZspec
  dsimp only
  rw [getCenterPoint_eq]

/-- C3, amended: every error propagated out of load either carries the
1-based line number of the offending line in its message (the errors load
itself raises: too-short line, unknown token, index out of bounds), or is
a record parser error carrying the offending line text instead of a line
number, or is an escaped out-of-range conversion error carrying neither. -/
theorem c3_error_payloads (lines : List String) (e : ObjErr) (h : load lines = .error e) :
    (∃ n, ObjErr.lineNum e = some n ∧ 1 ≤ n ∧ n ≤ lines.length) ∨
    (∃ s ∈ lines, ObjErr.lineText e = some s) ∨
    e = .stodOutOfRange ∨ e = .stoiOutOfRange := by
  have h1 := loadFrom_error lines .init 0 e h
  simpa using h1

/-- Witness for the amended C3: a too-short line produces an error whose
message carries line number 1. -/
theorem c3_error_payloads_witness :
    load ["x"] = .error (.lineTooShort 1) ∧
    ((∃ n, ObjErr.lineNum (ObjErr.lineTooShort 1) = some n ∧ 1 ≤ n ∧ n ≤ (["x"] : List String).length) ∨
      (∃ s ∈ (["x"] : List String), ObjErr.lineText (ObjErr.lineTooShort 1) = some s) ∨
      ObjErr.lineTooShort 1 = .stodOutOfRange ∨ ObjErr.lineTooShort 1 = .stoiOutOfRange) :=
  ⟨by decide, c3_error_payloads ["x"] (.lineTooShort 1) (by decide)⟩

/-- Counterexample to C3 as stated: the file whose single line is
"v a b c" fails inside parseVertex with an error that interpolates only
the line text; its message carries no line number, indeed no digit at
all. -/
theorem c3_parser_error_has_no_line_number :
    load ["v a b c"] = .error (.invalidVertexValues "v a b c") ∧
    ObjErr.lineNum (.invalidVertexValues "v a b c") = none ∧
    ((ObjErr.message (.invalidVertexValues "v a b c")).data.all fun c => !c.isDigit) = true := by
  refine ⟨by decide, rfl, by decide⟩

/-- C4: a whitespace-delimited face field is split on the slash character
keeping empty subtokens, as in the example v1//vn1; a field whose split
has fewer than 1 or more than 3 subtokens fails with the malformed-face
error, and only such fields do; a field of the v//vn shape yields a vertex
index and a normal index but no texture coordinate index. -/
theorem c4_face_field_split :
    (split "v1//vn1" '/' = ["v1", "", "vn1"]) ∧
    (∀ line t : String, ((split t '/').length < 1 ∨ 3 < (split t '/').length) ↔
      faceFieldParse line t = .error (.invalidFaceLine line)) ∧
    (∀ (line a c : String) (va vc : ℤ), stoiModel a = .ok va → stoiModel c = .ok vc →
      split (a ++ "//" ++ c) '/' = [a, "", c] →
      faceFieldParse line (a ++ "//" ++ c) = .ok ⟨va, none, some vc⟩) := by
  refine ⟨by decide, ?_, ?_⟩
  · intro line t
    constructor
    · intro hc
      unfold faceFieldParse
      rw [if_pos hc]
    · intro hres
      by_contra hcount
      unfold faceFieldParse at hres
      rw [if_neg hcount] at hres
      repeat' split at hres
      all_goals try cases hres
      all_goals rename_i heq
      · rcases runStoi_error _ _ _ heq with h1 | h1 <;> simp_all
      · repeat' split at heq
        all_goals try cases heq
        all_goals rename_i heq2
        all_goals rcases runStoi_error _ _ _ heq2 with h1 | h1 <;> simp_all
      · repeat' split at heq
        all_goals try cases heq
        all_goals rename_i heq2
        all_goals rcases runStoi_error _ _ _ heq2 with h1 | h1 <;> simp_all
  · intro line a c va vc h1 h2 h3
    unfold faceFieldParse
    rw [h3]
    rw [if_neg (by simp)]
    simp only [List.getD_cons_zero, List.getD_cons_succ]
    rw [runStoi_ok _ _ _ h1]
    rw [if_neg (by simp)]
    rw [if_pos (by simp)]
    rw [runStoi_ok _ _ _ h2]

/-- Witness for C4 with a concrete 1//2 face field. -/
theorem c4_face_field_split_witness :
    ((split "1/2/3/4" '/').length < 1 ∨ 3 < (split "1/2/3/4" '/').length) ∧
    faceFieldParse "f 1/2/3/4 5 6" "1/2/3/4" = .error (.invalidFaceLine "f 1/2/3/4 5 6") ∧
    faceFieldParse "f 1//2 3 4" ("1" ++ "//" ++ "2") = .ok ⟨1, none, some 2⟩ :=
  ⟨by decide,
    (c4_face_field_split.2.1 "f 1/2/3/4 5 6" "1/2/3/4").mp (by decide),
    c4_face_field_split.2.2 "f 1//2 3 4" "1" "2" 1 2 (by decide) (by decide) (by decide)⟩

/-- C7, amended: every record parser first splits its line on the space
character only (not general whitespace), discarding empty fields produced
by repeated separators, and fails with its keyword and field-count error
whenever the first field differs from the expected keyword or the field
count is out of range, for every input line and hence before any numeric
conversion is attempted. -/
theorem c7_keyword_and_count_guards :
    (∀ (s : String) (dl : Char),
      split_without_empty s dl = (split s dl).filter (fun t => t ≠ "")) ∧
    (∀ line : String, (split_without_empty line ' ').head? ≠ some "v" →
      parseVertex line = .error (.invalidVertexLine line)) ∧
    (∀ line : String, (split_without_empty line ' ').head? ≠ some "vt" →
      parseTextureCoordinate line = .error (.invalidTexCoordLine line)) ∧
    (∀ line : String, (split_without_empty line ' ').head? ≠ some "vn" →
      parseNormal line = .error (.invalidNormalLine line)) ∧
    (∀ line : String, (split_without_empty line ' ').head? ≠ some "vp" →
      parseParameterSpaceVertex line = .error (.invalidParamLine line)) ∧
    (∀ line : String, (split_without_empty line ' ').head? ≠ some "f" →
      parseFace line = .error (.invalidFaceLine line)) ∧
    (∀ line : String,
      (split_without_empty line ' ').length < 4 ∨ 5 < (split_without_empty line ' ').length →
      parseVertex line = .error (.invalidVertexLine line)) ∧
    (∀ line : String,
      (split_without_empty line ' ').length < 2 ∨ 4 < (split_without_empty line ' ').length →
      parseTextureCoordinate line = .error (.invalidTexCoordLine line)) ∧
    (∀ line : String, (split_without_empty line ' ').length ≠ 4 →
      parseNormal line = .error (.invalidNormalLine line)) ∧
    (∀ line : String,
      (split_without_empty line ' ').length < 2 ∨ 4 < (split_without_empty line ' ').length →
      parseParameterSpaceVertex line = .error (.invalidParamLine line)) ∧
    (∀ line : String, (split_without_empty line ' ').length < 4 →
      parseFace line = .error (.invalidFaceLine line)) := by
  refine ⟨split_without_empty_eq_filter, ?_, ?_, ?_, ?_, ?_, ?_, ?_, ?_, ?_, ?_⟩
  · intro line h; unfold parseVertex; rw [if_pos (Or.inr (Or.inr h))]
  · intro line h; unfold parseTextureCoordinate; rw [if_pos (Or.inr (Or.inr h))]
  · intro line h; unfold parseNormal; rw [if_pos (Or.inr h)]
  · intro line h; unfold parseParameterSpaceVertex; rw [if_pos (Or.inr (Or.inr h))]
  · intro line h; unfold parseFace; rw [if_pos (Or.inr h)]
  · intro line h
    unfold parseVertex
    rw [if_pos (h.elim Or.inl (fun hb => Or.inr (Or.inl hb)))]
  · intro line h
    unfold parseTextureCoordinate
    rw [if_pos (h.elim Or.inl (fun hb => Or.inr (Or.inl hb)))]
  · intro line h; unfold parseNormal; rw [if_pos (Or.inl h)]
  · intro line h
    unfold parseParameterSpaceVertex
    rw [if_pos (h.elim Or.inl (fun hb => Or.inr (Or.inl hb)))]
  · intro line h; unfold parseFace; rw [if_pos (Or.inl h)]

/-- Witness for the amended C7: a line whose first field is not the
expected keyword fails with the keyword error, and one with too few
fields does too. -/
theorem c7_keyword_and_count_guards_witness :
    ((split_without_empty "vv 1 2 3 4" ' ').head? ≠ some "v" ∧
      parseVertex "vv 1 2 3 4" = .error (.invalidVertexLine "vv 1 2 3 4")) ∧
    ((split_without_empty "v 1 2" ' ').length < 4 ∨
        5 < (split_without_empty "v 1 2" ' ').length) ∧
    parseVertex "v 1 2" = .error (.invalidVertexLine "v 1 2") :=
  ⟨⟨by decide, c7_keyword_and_count_guards.2.1 "vv 1 2 3 4" (by decide)⟩,
    by decide, c7_keyword_and_count_guards.2.2.2.2.2.2.1 "v 1 2" (by decide)⟩

set_option maxRecDepth 4000 in
/-- Counterexample to C7 as stated: the parsers split on the space
character only, not on whitespace. On the line with an embedded tab the
code keeps the tab inside one field, so the parse differs observably from
a whitespace split: the spec preprocessing yields five fields while the
code yields four, and the parsed vertex is (1, 3, 4) rather than
(1, 2, 3) with w 4. -/
theorem c7_space_split_cex :
    split_without_empty "v 1\t2 3 4" ' ' = ["v", "1\t2", "3", "4"] ∧
    wsSplitSpec "v 1\t2 3 4" = ["v", "1", "2", "3", "4"] ∧
    split_without_empty "v 1\t2 3 4" ' ' ≠ wsSplitSpec "v 1\t2 3 4" ∧
    parseVertex "v 1\t2 3 4" = .ok ⟨1, 3, 4, 1⟩ := by
  refine ⟨by decide, by decide, by decide, by decide⟩

/-- C8: a freshly loaded document has cumulative scale 1, every sequence
of transform calls keeps the accumulator inside the interval 0.01 to 2, a
scale call whose resulting cumulative scale would leave that interval is a
no-op, and no operation other than scale modifies the accumulator. -/
theorem c8_scale_accumulator_invariant (lines : List String) (d : ObjectFile ℚ)
    (h : load lines = .ok d) :
    (toReal d)._scale = 1 ∧
    (∀ ops : List TransformOp,
      1 / 100 ≤ (applyOps ops (toReal d))._scale ∧ (applyOps ops (toReal d))._scale ≤ 2) ∧
    (∀ (e : ObjectFile ℝ) (f : ℝ),
      e._scale * f < 1 / 100 ∨ 2 < e._scale * f → e.scale f = e) ∧
    (∀ (e : ObjectFile ℝ) (ax ay az : ℝ), (e.rotate ax ay az)._scale = e._scale) ∧
    (∀ (e : ObjectFile ℝ) (dx dy dz : ℝ), (e.translate dx dy dz)._scale = e._scale) ∧
    (∀ e : ObjectFile ℝ, e.center._scale = e._scale) ∧
    (∀ e : ObjectFile ℝ, e.normalize._scale = e._scale) := by
  have hs : (toReal d)._scale = 1 := by
    show ((d._scale : ℚ) : ℝ) = 1
    rw [load_scale lines d h]
    norm_num
  refine ⟨hs, ?_, ?_, rotate_scaleAcc, translate_scaleAcc, center_scaleAcc,
    normalize_scaleAcc⟩
  · intro ops
    exact applyOps_scaleAcc ops (toReal d) (by rw [hs]; norm_num)
  · intro e f hf
    exact scale_noop e f (Or.inr hf)

/-- Witness for C8 at the empty file and the empty operation list. -/
theorem c8_scale_accumulator_invariant_witness :
    load [] = .ok ObjectFile.init ∧
    (1 / 100 ≤ (applyOps [] (toReal ObjectFile.init))._scale ∧
      (applyOps [] (toReal ObjectFile.init))._scale ≤ 2) :=
  ⟨rfl, (c8_scale_accumulator_invariant [] ObjectFile.init rfl).2.1 []⟩

/-- C9: each transform call mutates only vertex coordinates and the scale
accumulator; the vertex w components, the texture coordinate, normal,
parameter space vertex, face and line sequences, the element counters, and
the length of the vertex sequence are unchanged by rotate, translate,
scale, center and normalize. -/
theorem c9_transform_frame (d : ObjectFile K) (dR : ObjectFile ℝ)
    (dx dy dz f : K) (ax ay az : ℝ) :
    framePreserved d (d.translate dx dy dz) ∧
    framePreserved d (d.scale f) ∧
    framePreserved d d.center ∧
    framePreserved d d.normalize ∧
    framePreserved dR (dR.rotate ax ay az) :=
  ⟨translate_framePreserved d dx dy dz, scale_framePreserved d f,
    center_framePreserved d, normalize_framePreserved d,
    rotate_framePreserved dR ax ay az⟩

set_option maxRecDepth 4000 in
/-- C10: a numeric field with a valid numeric prefix parses to the value
of that prefix with trailing garbage ignored (3abc parses as 3, and the
hexadecimal field 0x1A parses as 26); the infinity and nan forms are
accepted without error; the classified invalid-number error occurs
exactly when the field has no leading numeric prefix; and an out-of-range
value escapes as the uncaught out-of-range error, not as the classified
parser error. -/
theorem c10_numeric_conversion :
    (parseVertex "v 3abc 1 2" = .ok ⟨3, 1, 2, 1⟩) ∧
    (parseVertex "v 0x1A 0 0" = .ok ⟨26, 0, 0, 1⟩) ∧
    (stodModel "inf" = .ok .posInf ∧ stodModel "-INF" = .ok .negInf ∧
      stodModel "nan" = .ok .nan) ∧
    (∀ ds suffix : List Char, ds ≠ [] → (∀ c ∈ ds, c.isDigit = true) →
      (∀ c, suffix.head? = some c →
        c.isDigit = false ∧ c ≠ '.' ∧ c ≠ 'e' ∧ c ≠ 'E' ∧ c ≠ 'x' ∧ c ≠ 'X') →
      stodModel (String.mk (ds ++ suffix)) = stodModel (String.mk ds)) ∧
    (∀ (onInvalid : ObjErr) (t : String), onInvalid ≠ .stodOutOfRange →
      (runStod onInvalid t = .error onInvalid ↔ hasNumStart t = false)) ∧
    (∀ (onInvalid : ObjErr) (t : String), onInvalid ≠ .stoiOutOfRange →
      (runStoi onInvalid t = .error onInvalid ↔ hasIntStart t = false)) ∧
    (∀ (onInvalid : ObjErr) (t : String), stodModel t = .error .outOfRange →
      runStod onInvalid t = .error .stodOutOfRange) ∧
    (∀ (onInvalid : ObjErr) (t : String), stoiModel t = .error .outOfRange →
      runStoi onInvalid t = .error .stoiOutOfRange) ∧
    (parseVertex "v 1e999 0 0" = .error .stodOutOfRange) ∧
    (parseFace "f 1 2 3000000000" = .error .stoiOutOfRange) := by
  exact ⟨by decide, by decide, ⟨by decide, by decide, by decide⟩,
    stodModel_digits_append, runStod_invalid_iff, runStoi_invalid_iff,
    runStod_oor, runStoi_oor, by decide, by decide⟩

set_option maxRecDepth 4000 in
/-- Witness for C10: the field 3abc parses like the field 3, the field
abc has no numeric prefix so the classified error fires, the field inf
has a numeric prefix so it does not, and an out-of-range integer field
escapes unclassified. -/
theorem c10_numeric_conversion_witness :
    stodModel (String.mk (['3'] ++ ['a', 'b', 'c'])) = stodModel (String.mk ['3']) ∧
    (runStod (.invalidVertexValues "v abc 1 2") "abc" =
        .error (.invalidVertexValues "v abc 1 2") ↔ hasNumStart "abc" = false) ∧
    (runStod (.invalidVertexValues "v inf 1 2") "inf" =
        .error (.invalidVertexValues "v inf 1 2") ↔ hasNumStart "inf" = false) ∧
    runStoi (.invalidFaceValues "f 1 1 3000000000") "3000000000" = .error .stoiOutOfRange :=
  ⟨c10_numeric_conversion.2.2.2.1 ['3'] ['a', 'b', 'c'] (by decide) (by decide) (by decide),
    c10_numeric_conversion.2.2.2.2.1 (.invalidVertexValues "v abc 1 2") "abc" (by decide),
    c10_numeric_conversion.2.2.2.2.1 (.invalidVertexValues "v inf 1 2") "inf" (by decide),
    c10_numeric_conversion.2.2.2.2.2.2.2.1 (.invalidFaceValues "f 1 1 3000000000")
      "3000000000" (by decide)⟩

end Claims

end Scop
